import Mathlib

/-!
WarpCore: shallow embedding of `src/main.cpp`.

The animation core of the firmware (hue helpers, `chase`, the pattern switch of
`loop`) and the two parameter handlers (`handleSettings`, `mqttMessageReceived`)
are translated into Lean functions over an explicit `State` record that holds the
program's global variables.

Conventions:
* C `int` values are `Int`; a `byte` variable holds an `Int` in `[0, 256)` and every
  store into a `byte` goes through `byte`, the reduction modulo `2^8`.
* `/` on non-negative operands is the ordinary quotient; where an operand may be
  negative the truncating quotient `Int.tdiv` of C is used.
* An integer division by zero has no result: the function returns `none`.
* The FastLED library is not part of the repository; its colour conversion and
  its fade are parameters (`FastLED`).
* The ramp loop of `chase` has no bound of its own, so it is run with a fuel
  counter: the result is the list of flushed frames seen so far together with the
  final state, which is `none` when the fuel ran out before the loop ended.
-/

namespace WarpCore

/-! ## Constants (`#define`s, lines 82-93, 140, 240-244) -/

def SegmentSize : Int := 5
def TopLEDcount : Int := 10
def ReactionLEDcount : Int := 3
def BottomLEDcount : Int := 15

def DefaultWarpFactor : Int := 2
def DefaultMainHue : Int := 160
def DefaultSaturation : Int := 255
def DefaultBrightness : Int := 160
def DefaultPattern : Int := 1
def RateMultiplier : Int := 2

def NUM_LEDS : Int := ((TopLEDcount + ReactionLEDcount + BottomLEDcount))

/-- The macro `PulseLength` is the token sequence `SegmentSize*2`. At the places
where it stands alone (`PulseLength-1`, `chases + PulseLength`) the textual
expansion has this value. -/
def PulseLength : Int := SegmentSize * 2

/-- The macro `maxChases` is `(max(TopLEDcount,BottomLEDcount)/PulseLength+1)*PulseLength`;
`PulseLength` is substituted textually (without parentheses), which gives the
expression below, evaluated left to right as in C. -/
def maxChases : Int :=
  (max TopLEDcount BottomLEDcount / SegmentSize * 2 + 1) * SegmentSize * 2

/-- The macro `TopDiff`, `TopLEDcount-BottomLEDcount`; it is only used as `abs(TopDiff)`. -/
def TopDiff : Int := TopLEDcount - BottomLEDcount

/-- The macro `TopLEDtotal`, `TopLEDcount+ReactionLEDcount`; it is only used as the
right operand of `<`. -/
def TopLEDtotal : Int := TopLEDcount + ReactionLEDcount

/-! ## Data model -/

/-- Store of an `int` into a `byte` (`uint8_t`): reduction modulo 256. -/
def byte (x : Int) : Int := x % 256

/-- One colour cell of the LED buffer. -/
structure CRGB where
  r : Nat
  g : Nat
  b : Nat
deriving DecidableEq, Repr

/-- The operations of the FastLED library that the program calls on colour cells:
the conversion performed when a `CHSV(h, s, v)` is assigned to a `CRGB` cell and
the per-cell effect of `fadeToBlackBy` with a given amount. -/
structure FastLED where
  CHSV : Int → Int → Int → CRGB
  fadeToBlackBy : CRGB → Int → CRGB

/-- Index type of `LEDarray[NUM_LEDS]`. -/
abbrev LEDindex : Type := Fin NUM_LEDS.toNat

/-- The global variables of the program (lines 141-152), the `static int Pulse`
of `chase` and the brightness last handed to `FastLED.setBrightness`. -/
structure State where
  Rate : Int
  warp_factor : Int
  hue : Int
  MainHue : Int
  ReactorHue : Int
  saturation : Int
  brightness : Int
  pattern : Int
  Pulse : Int
  LEDarray : LEDindex → CRGB
  shownBrightness : Int

/-- The state after the global initialisers and `setup()`. -/
def initState : State :=
  { Rate := byte (RateMultiplier * DefaultWarpFactor)
    warp_factor := DefaultWarpFactor
    hue := DefaultMainHue
    MainHue := DefaultMainHue
    ReactorHue := DefaultMainHue
    saturation := DefaultSaturation
    brightness := DefaultBrightness
    pattern := DefaultPattern
    Pulse := 0
    LEDarray := fun _ => ⟨0, 0, 0⟩
    shownBrightness := DefaultBrightness }

/-- A frame handed to the device by `FastLED.show()`: the program state at that
moment and the ramp value of the step. -/
structure Flush where
  st : State
  value : Int

/-- Assignment `LEDarray[i] = c`. -/
def setLED (leds : LEDindex → CRGB) (i : Int) (c : CRGB) : LEDindex → CRGB :=
  fun j => if (j.val : Int) = i then c else leds j

/-! ## Hue helpers (lines 216-235) -/

def incrementReactorHue (s : State) : State :=
  if s.MainHue = 255 then { s with ReactorHue := 0 }
  else { s with ReactorHue := byte (s.ReactorHue + 1) }

def incrementMainHue (s : State) : State :=
  if s.MainHue = 255 then { s with MainHue := 0 }
  else { s with MainHue := byte (s.MainHue + 1) }

def incrementHue (s : State) : State :=
  incrementReactorHue (incrementMainHue s)

/-! ## `chase` (lines 245-290) -/

/-- Line 268: `byte Top = Pulse + chases;`. -/
def topIndex (Pulse chases : Int) : Int := byte (Pulse + chases)

/-- Line 269: `byte Bottom = NUM_LEDS + abs(TopDiff) - (Pulse + chases) - 1;`. -/
def bottomIndex (Pulse chases : Int) : Int :=
  byte (NUM_LEDS + |TopDiff| - (Pulse + chases) - 1)

/-- Line 270: `Top < TopLEDtotal`. -/
def topValid (Pulse chases : Int) : Bool :=
  decide (topIndex Pulse chases < TopLEDtotal)

/-- Line 273: `Bottom > TopLEDcount && Bottom < NUM_LEDS`. -/
def bottomValid (Pulse chases : Int) : Bool :=
  decide (bottomIndex Pulse chases > TopLEDcount) && decide (bottomIndex Pulse chases < NUM_LEDS)

/-- Body of the loop over `chases` (lines 268-275). -/
def chaseBody (lib : FastLED) (value chases : Int) (s : State) : State :=
  let s1 : State :=
    if topValid s.Pulse chases then
      { s with LEDarray := setLED s.LEDarray (topIndex s.Pulse chases)
                              (lib.CHSV s.MainHue s.saturation (byte value)) }
    else s
  if bottomValid s1.Pulse chases then
    { s1 with LEDarray := setLED s1.LEDarray (bottomIndex s1.Pulse chases)
                              (lib.CHSV s1.MainHue s1.saturation (byte value)) }
  else s1

/-- The loop `for (chases = 0; chases < maxChases; chases = chases + PulseLength)`
(line 267), run for at most `n` iterations. -/
def chasesLoop (lib : FastLED) (value : Int) : Nat → Int → State → State
  | 0, _, s => s
  | n + 1, chases, s =>
    if chases < maxChases then
      chasesLoop lib value n (chases + PulseLength) (chaseBody lib value chases s)
    else s

/-- The loop over the reaction chamber (lines 278-280), run for at most `n` iterations. -/
def reactionLoop (lib : FastLED) : Nat → Int → State → State
  | 0, _, s => s
  | n + 1, reaction, s =>
    if reaction < ReactionLEDcount then
      reactionLoop lib n (reaction + 1)
        { s with LEDarray := setLED s.LEDarray (TopLEDcount + reaction)
                                (lib.CHSV s.ReactorHue s.saturation 255) }
    else s

/-- Line 284: `fadeToBlackBy(LEDarray, NUM_LEDS, (Rate*0.8))`; the amount is the
product truncated to an integer and stored in a byte. -/
def fadeAll (lib : FastLED) (s : State) : State :=
  { s with LEDarray := fun j => lib.fadeToBlackBy (s.LEDarray j) (byte (s.Rate * 8 / 10)) }

/-- Lines 260-280 of one ramp step, up to the flush: clamp of `value` is done by the
caller; hue increment for `Rainbow`, the chase writes and the reaction chamber. -/
def rampBody (lib : FastLED) (Rainbow : Bool) (value : Int) (s : State) : State :=
  let s1 := if Rainbow then incrementHue s else s
  let s2 := chasesLoop lib value maxChases.toNat 0 s1
  reactionLoop lib ReactionLEDcount.toNat 0 s2

/-- The ramp loop `for (int value = 32; value < 512; value = value + Rate)` (lines
259-289) entered with the given `value`. Returns the frames flushed, in order, and
the state after the loop, or `none` for the state when the fuel is used up first. -/
def rampLoop (lib : FastLED) (Rainbow : Bool) : Nat → Int → State → List Flush × Option State
  | 0, _, _ => ([], none)
  | fuel + 1, value, s =>
    if value < 512 then
      let v : Int := if value > 255 then 255 else value
      let s1 := rampBody lib Rainbow v s
      let s2 := fadeAll lib s1
      if v = 255 then ([⟨s1, v⟩], some s2)
      else
        let r := rampLoop lib Rainbow fuel (v + s2.Rate) s2
        (⟨s1, v⟩ :: r.1, r.2)
    else ([], some s)

/-- Lines 246-257 of `chase`: the pulse phase and the hue increments of the fade modes. -/
def chasePhase (Fade SlowFade : Bool) (s : State) : State :=
  let s1 : State :=
    if s.Pulse = PulseLength - 1 then
      let s0 : State := { s with Pulse := 0 }
      if SlowFade then incrementHue s0 else s0
    else { s with Pulse := s.Pulse + 1 }
  if Fade then incrementHue s1 else s1

def chase (lib : FastLED) (fuel : Nat) (Rainbow Fade SlowFade : Bool) (s : State) :
    List Flush × Option State :=
  rampLoop lib Rainbow fuel 32 (chasePhase Fade SlowFade s)

/-! ## The pattern switch of `loop` (lines 329-359) -/

/-- Lines 335-346: the hue update of the breach pattern. -/
def breachHue (s : State) : State :=
  let breach_diff := byte (255 - s.hue)
  let transition_hue := byte (s.hue + breach_diff / 2)
  let s1 := if s.ReactorHue < 255 then incrementReactorHue s else s
  let s2 := if s1.ReactorHue > transition_hue ∧ s1.MainHue < 255 then incrementMainHue s1 else s1
  if s2.ReactorHue ≥ 255 ∧ s2.MainHue ≥ 255 then
    let s3 : State := { s2 with MainHue := s2.hue }
    { s3 with ReactorHue := byte (s3.MainHue + 1) }
  else s2

/-- Line 347: `Rate = (((ReactorHue - MainHue) / (breach_diff / 9) + 1) * RateMultiplier);`
evaluated in `int` with the truncating quotient and stored in the byte `Rate`.
There is no value when the divisor `breach_diff / 9` is zero. -/
def breachRate (s : State) : Option Int :=
  let breach_diff := byte (255 - s.hue)
  if breach_diff / 9 = 0 then none
  else some (byte (((s.ReactorHue - s.MainHue).tdiv (breach_diff / 9) + 1) * RateMultiplier))

/-- Lines 335-347: the pre-step of pattern 2; the state handed to `chase`. -/
def breachUpdate (s : State) : Option State :=
  let s1 := breachHue s
  (breachRate s1).map (fun r => { s1 with Rate := r })

/-- The `switch(pattern)` of `loop()`: one scheduler tick of the animation core.
The result is `none` when the tick has no result (division by zero); otherwise
the frames flushed and the state after the tick (`none` when the ramp loop did
not end within the fuel). -/
def loop (lib : FastLED) (fuel : Nat) (s : State) : Option (List Flush × Option State) :=
  if s.pattern = 1 then
    some (chase lib fuel false false false { s with ReactorHue := s.MainHue })
  else if s.pattern = 2 then
    (breachUpdate s).map (fun s1 => chase lib fuel false false false s1)
  else if s.pattern = 3 then some (chase lib fuel true false false s)
  else if s.pattern = 4 then some (chase lib fuel false true false s)
  else if s.pattern = 5 then some (chase lib fuel false false true s)
  else some ([], some { s with pattern := DefaultPattern })

/-! ## Parameter handlers -/

/-- The query arguments of a request to `/settings` that the handler looks at:
for each name, the value of `server.arg(name).toInt()` when `server.hasArg(name)`. -/
structure Request where
  pattern : Option Int
  brightness : Option Int
  hue : Option Int
  saturation : Option Int
  warpFactor : Option Int

/-- A request without arguments. -/
def Request.empty : Request := ⟨none, none, none, none, none⟩

/-- Handler `handleSettings` (lines 466-515). -/
def handleSettings (s : State) (req : Request) : State :=
  let s1 : State :=
    match req.pattern with
    | some t0 =>
      let t1 := if t0 < 1 then 1 else t0
      let t := if t1 > 5 then 5 else t1
      { s with pattern := byte t }
    | none => s
  let s2 : State :=
    match req.brightness with
    | some t0 =>
      let t1 := if t0 < 0 then 0 else t0
      let t := if t1 > 255 then 255 else t1
      { s1 with brightness := byte t, shownBrightness := byte t }
    | none => s1
  let s3 : State :=
    match req.hue with
    | some t0 =>
      let t1 := if t0 < 0 then 0 else t0
      let t := if t1 > 255 then 255 else t1
      { s2 with hue := byte t, MainHue := byte t, ReactorHue := byte t }
    | none => s2
  let s4 : State :=
    match req.saturation with
    | some t0 =>
      let t1 := if t0 < 0 then 0 else t0
      let t := if t1 > 255 then 255 else t1
      { s3 with saturation := byte t }
    | none => s3
  match req.warpFactor with
  | some t0 =>
    let t1 := if t0 < 1 then 1 else t0
    let t := if t1 > 9 then 9 else t1
    { s4 with warp_factor := byte t, Rate := byte (RateMultiplier * byte t) }
  | none => s4

/-- What `mqttMessageReceived` reads of the topic: for each parameter name, whether
`topic.indexOf(name) != -1`. -/
structure Topic where
  pattern : Bool
  hue : Bool
  brightness : Bool
  saturation : Bool
  warpFactor : Bool

/-- Handler `mqttMessageReceived` (lines 601-644); `payload` is the value of `payload.toInt()`. -/
def mqttMessageReceived (s : State) (topic : Topic) (payload : Int) : State :=
  let s1 : State := if topic.pattern then { s with pattern := byte payload } else s
  let s2 : State :=
    if topic.hue then
      { s1 with hue := byte payload, MainHue := byte payload, ReactorHue := byte payload }
    else s1
  let s3 : State :=
    if topic.brightness then
      { s2 with brightness := byte payload, shownBrightness := byte payload }
    else s2
  let s4 : State := if topic.saturation then { s3 with saturation := byte payload } else s3
  if topic.warpFactor then
    { s4 with warp_factor := byte payload, Rate := byte (RateMultiplier * byte payload) }
  else s4

/-- An instance of the library operations used to evaluate the program on concrete
inputs: the conversion keeps the three components, the fade scales them. -/
def sampleLib : FastLED :=
  { CHSV := fun h s v => ⟨h.toNat, s.toNat, v.toNat⟩
    fadeToBlackBy := fun c a =>
      ⟨c.r * (255 - a.toNat) / 256, c.g * (255 - a.toNat) / 256, c.b * (255 - a.toNat) / 256⟩ }

/-- Clamping of `t` to `[lo, hi]`, as the claims state it. -/
def clamp (lo hi t : Int) : Int := max lo (min hi t)

/-- The state after a request `/settings?pattern=2&hue=h` on the initial state:
breach mode with `MainHue = ReactorHue = hue`. -/
def breachStart (h : Int) : State :=
  handleSettings initState { Request.empty with pattern := some 2, hue := some h }

/-- The rate formula in the words of the specification,
`((reactorHue − mainHue) / ((255−hue)/2 / 9) + 1) × rateMultiplier`, truncating
division, stored in a byte; to be compared with `breachRate`. -/
def specBreachRate (s : State) : Int :=
  byte (((s.ReactorHue - s.MainHue).tdiv ((255 - s.hue) / 2 / 9) + 1) * RateMultiplier)

/-- The values `chases` takes in the loop of line 267 when it is run for at most `n`
iterations from the given value: the same recursion as `chasesLoop`, collecting
the offsets instead of running the body. -/
def chasesVisited : Nat → Int → List Int
  | 0, _ => []
  | n + 1, chases =>
    if chases < maxChases then chases :: chasesVisited n (chases + PulseLength) else []

/-- The chase offsets one ramp step enumerates (`rampBody` runs `chasesLoop` with
these bounds). -/
def chaseOffsets : List Int := chasesVisited maxChases.toNat 0

/-- Line 336: `byte transition_hue = hue + (breach_diff/2);` with
`byte breach_diff = 255 - hue;` (line 335). -/
def transition_hue (s : State) : Int := byte (s.hue + byte (255 - s.hue) / 2)

/-- Lines 337-339: the reactor update of the breach pattern. -/
def breachReactorStep (s : State) : State :=
  if s.ReactorHue < 255 then incrementReactorHue s else s

/-- Lines 340-342: the main hue update of the breach pattern. -/
def breachMainStep (s : State) : State :=
  if s.ReactorHue > transition_hue s ∧ s.MainHue < 255 then incrementMainHue s else s

/-- Lines 343-346: the end-of-cycle reset of the breach pattern. -/
def breachResetStep (s : State) : State :=
  if s.ReactorHue ≥ 255 ∧ s.MainHue ≥ 255 then
    let s3 : State := { s with MainHue := s.hue }
    { s3 with ReactorHue := byte (s3.MainHue + 1) }
  else s

/-- The state after one scheduler tick: the final state of `loop`, when the tick has
a result and its ramp loop ended within the fuel. -/
def tick (lib : FastLED) (fuel : Nat) (s : State) : Option State :=
  (loop lib fuel s).bind (fun r => r.2)

/-- The state after `n` scheduler ticks. -/
def ticks (lib : FastLED) (fuel : Nat) : Nat → State → Option State
  | 0, s => some s
  | n + 1, s => (ticks lib fuel n s).bind (tick lib fuel)

/-- The variables that `chase` without flags leaves alone: `t` has the base hue, the
two hue values and the pattern id of `s`. -/
def sameHues (s t : State) : Prop :=
  t.hue = s.hue ∧ t.MainHue = s.MainHue ∧ t.ReactorHue = s.ReactorHue ∧ t.pattern = s.pattern

/-! ## Basic facts about the embedding -/

theorem abs_TopDiff : |TopDiff| = 5 := by
  simp [TopDiff, TopLEDcount, BottomLEDcount]

theorem maxChases_eq : maxChases = 70 := by decide

@[simp] theorem incrementReactorHue_Rate (s : State) : (incrementReactorHue s).Rate = s.Rate := by
  unfold incrementReactorHue; split <;> rfl

@[simp] theorem incrementMainHue_Rate (s : State) : (incrementMainHue s).Rate = s.Rate := by
  unfold incrementMainHue; split <;> rfl

@[simp] theorem incrementHue_Rate (s : State) : (incrementHue s).Rate = s.Rate := by
  simp [incrementHue]

@[simp] theorem chaseBody_Rate (lib : FastLED) (value chases : Int) (s : State) :
    (chaseBody lib value chases s).Rate = s.Rate := by
  simp only [chaseBody]; split_ifs <;> rfl

@[simp] theorem chaseBody_ReactorHue (lib : FastLED) (value chases : Int) (s : State) :
    (chaseBody lib value chases s).ReactorHue = s.ReactorHue := by
  simp only [chaseBody]; split_ifs <;> rfl

@[simp] theorem chaseBody_saturation (lib : FastLED) (value chases : Int) (s : State) :
    (chaseBody lib value chases s).saturation = s.saturation := by
  simp only [chaseBody]; split_ifs <;> rfl

@[simp] theorem chasesLoop_Rate (lib : FastLED) (value : Int) (n : Nat) (chases : Int) (s : State) :
    (chasesLoop lib value n chases s).Rate = s.Rate := by
  induction n generalizing chases s with
  | zero => rfl
  | succ n ih => unfold chasesLoop; split_ifs <;> simp [ih]

@[simp] theorem chasesLoop_ReactorHue (lib : FastLED) (value : Int) (n : Nat) (chases : Int)
    (s : State) : (chasesLoop lib value n chases s).ReactorHue = s.ReactorHue := by
  induction n generalizing chases s with
  | zero => rfl
  | succ n ih => unfold chasesLoop; split_ifs <;> simp [ih]

@[simp] theorem chasesLoop_saturation (lib : FastLED) (value : Int) (n : Nat) (chases : Int)
    (s : State) : (chasesLoop lib value n chases s).saturation = s.saturation := by
  induction n generalizing chases s with
  | zero => rfl
  | succ n ih => unfold chasesLoop; split_ifs <;> simp [ih]

@[simp] theorem reactionLoop_Rate (lib : FastLED) (n : Nat) (reaction : Int) (s : State) :
    (reactionLoop lib n reaction s).Rate = s.Rate := by
  induction n generalizing reaction s with
  | zero => rfl
  | succ n ih => unfold reactionLoop; split_ifs <;> simp [ih]

@[simp] theorem reactionLoop_ReactorHue (lib : FastLED) (n : Nat) (reaction : Int) (s : State) :
    (reactionLoop lib n reaction s).ReactorHue = s.ReactorHue := by
  induction n generalizing reaction s with
  | zero => rfl
  | succ n ih => unfold reactionLoop; split_ifs <;> simp [ih]

@[simp] theorem reactionLoop_saturation (lib : FastLED) (n : Nat) (reaction : Int) (s : State) :
    (reactionLoop lib n reaction s).saturation = s.saturation := by
  induction n generalizing reaction s with
  | zero => rfl
  | succ n ih => unfold reactionLoop; split_ifs <;> simp [ih]

@[simp] theorem rampBody_Rate (lib : FastLED) (Rainbow : Bool) (value : Int) (s : State) :
    (rampBody lib Rainbow value s).Rate = s.Rate := by
  unfold rampBody; cases Rainbow <;> simp

@[simp] theorem fadeAll_Rate (lib : FastLED) (s : State) : (fadeAll lib s).Rate = s.Rate := rfl

@[simp] theorem chasePhase_Rate (Fade SlowFade : Bool) (s : State) :
    (chasePhase Fade SlowFade s).Rate = s.Rate := by
  unfold chasePhase; cases Fade <;> cases SlowFade <;> simp <;> split_ifs <;> simp

/-- With `Rate = 0` the ramp value never moves from a value below 255: the loop does
not end, whatever the fuel. -/
theorem rampLoop_Rate_zero (lib : FastLED) (Rainbow : Bool) (fuel : Nat) (value : Int) (s : State)
    (hR : s.Rate = 0) (hv : value < 255) : (rampLoop lib Rainbow fuel value s).2 = none := by
  induction fuel generalizing s with
  | zero => rfl
  | succ n ih =>
    unfold rampLoop
    have h1 : value < 512 := by omega
    have h2 : ¬ value > 255 := by omega
    have h3 : ¬ value = 255 := by omega
    simp only [h1, h2, h3, if_true, if_false, rampBody_Rate, fadeAll_Rate, hR, add_zero]
    exact ih _ (by simp [hR])

@[simp] theorem breachHue_hue (s : State) : (breachHue s).hue = s.hue := by
  simp only [breachHue, incrementReactorHue, incrementMainHue]
  split_ifs <;> rfl

/-- Every frame flushed by the ramp loop carries the `Rate` the loop was entered with. -/
theorem rampLoop_frames_Rate (lib : FastLED) (Rainbow : Bool) (fuel : Nat) (value : Int)
    (s : State) (f : Flush) (hf : f ∈ (rampLoop lib Rainbow fuel value s).1) :
    f.st.Rate = s.Rate := by
  induction fuel generalizing value s with
  | zero => simp [rampLoop] at hf
  | succ n ih =>
    unfold rampLoop at hf
    by_cases h1 : value < 512
    · simp only [h1, if_true] at hf
      generalize (if value > 255 then 255 else value) = v at hf
      by_cases h2 : v = 255
      · simp only [h2, if_true, List.mem_singleton] at hf
        subst hf; simp
      · simp only [h2, if_false, List.mem_cons] at hf
        rcases hf with hf | hf
        · subst hf; simp
        · rw [ih _ _ hf, fadeAll_Rate, rampBody_Rate]
    · simp only [h1, if_false] at hf
      exact absurd hf (List.not_mem_nil _)

/-- The breach hue update keeps the state `hue = 255`, `MainHue = 255`, `ReactorHue = 0`. -/
theorem breachHue_stalled (s : State) (hh : s.hue = 255) (hM : s.MainHue = 255)
    (hR : s.ReactorHue = 0) :
    (breachHue s).hue = 255 ∧ (breachHue s).MainHue = 255 ∧ (breachHue s).ReactorHue = 0 := by
  simp [breachHue, incrementReactorHue, incrementMainHue, byte, hh, hM, hR]

/-! ### The ramp loop -/

theorem rampLoop_succ_top (lib : FastLED) (Rainbow : Bool) (fuel : Nat) (value : Int) (s : State)
    (h1 : value < 512) (h2 : 255 ≤ value) :
    rampLoop lib Rainbow (fuel + 1) value s =
      ([⟨rampBody lib Rainbow 255 s, 255⟩], some (fadeAll lib (rampBody lib Rainbow 255 s))) := by
  have hv : (if value > 255 then 255 else value) = 255 := by split_ifs <;> omega
  simp only [rampLoop, h1, if_true, hv]

theorem rampLoop_succ_below (lib : FastLED) (Rainbow : Bool) (fuel : Nat) (value : Int) (s : State)
    (h : value < 255) :
    rampLoop lib Rainbow (fuel + 1) value s =
      (⟨rampBody lib Rainbow value s, value⟩ ::
          (rampLoop lib Rainbow fuel (value + s.Rate) (fadeAll lib (rampBody lib Rainbow value s))).1,
        (rampLoop lib Rainbow fuel (value + s.Rate) (fadeAll lib (rampBody lib Rainbow value s))).2) := by
  have h1 : value < 512 := by omega
  have hv : (if value > 255 then 255 else value) = value := by split_ifs <;> omega
  have h3 : ¬ value = 255 := by omega
  simp only [rampLoop, h1, if_true, hv, h3, if_false, fadeAll_Rate, rampBody_Rate]

/-- Every flushed frame is the state right after the body of a ramp step. -/
theorem rampLoop_frames_shape (lib : FastLED) (Rainbow : Bool) (fuel : Nat) (value : Int)
    (s : State) (f : Flush) (hf : f ∈ (rampLoop lib Rainbow fuel value s).1) :
    ∃ (v : Int) (s0 : State), f.st = rampBody lib Rainbow v s0 := by
  induction fuel generalizing value s with
  | zero => simp [rampLoop] at hf
  | succ n ih =>
    by_cases h1 : value < 512
    · by_cases h2 : value < 255
      · rw [rampLoop_succ_below lib Rainbow n value s h2] at hf
        simp only [List.mem_cons] at hf
        rcases hf with hf | hf
        · exact ⟨value, s, by rw [hf]⟩
        · exact ih _ _ hf
      · rw [rampLoop_succ_top lib Rainbow n value s h1 (by omega)] at hf
        simp only [List.mem_singleton] at hf
        exact ⟨255, s, by rw [hf]⟩
    · unfold rampLoop at hf
      simp only [h1, if_false] at hf
      exact absurd hf (List.not_mem_nil _)

/-- The reaction loop writes `CHSV(ReactorHue, saturation, 255)` into cells 10, 11, 12. -/
theorem reactionLoop_cells (lib : FastLED) (s : State) (j : LEDindex)
    (h1 : TopLEDcount ≤ (j.val : Int)) (h2 : (j.val : Int) < TopLEDcount + ReactionLEDcount) :
    (reactionLoop lib ReactionLEDcount.toNat 0 s).LEDarray j
      = lib.CHSV s.ReactorHue s.saturation 255 := by
  have h3 : ReactionLEDcount.toNat = 3 := by decide
  obtain ⟨j, hj⟩ := j
  simp only [TopLEDcount, ReactionLEDcount] at h1 h2
  have hcases : j = 10 ∨ j = 11 ∨ j = 12 := by omega
  rw [h3]
  rcases hcases with h | h | h <;> subst h <;>
    simp [reactionLoop, ReactionLEDcount, TopLEDcount, setLED]

/-- Number of steps of the ramp loop entered with `value` below 512 when `Rate` is in
1..255 and the fuel suffices: all steps but the last have a value below 255, the
last one has 255, and there are `⌈max 0 (255 - value) / Rate⌉` steps before the last. -/
theorem rampLoop_steps (lib : FastLED) (Rainbow : Bool) (Rate : Int) (hR1 : 1 ≤ Rate)
    (hR2 : Rate ≤ 255) (fuel : Nat) (value : Int) (s : State) (hs : s.Rate = Rate)
    (hv : value < 512) (hf1 : 1 ≤ fuel) (hf2 : 255 - value ≤ ((fuel : Int) - 1) * Rate) :
    ∃ (fs : List Flush) (f : Flush) (s1 : State),
      rampLoop lib Rainbow fuel value s = (fs ++ [f], some s1) ∧ f.value = 255 ∧
      (∀ g ∈ fs, g.value < 255) ∧
      (fs.length : Int) = (max 0 (255 - value) + Rate - 1) / Rate := by
  induction fuel generalizing value s with
  | zero => omega
  | succ n ih =>
    by_cases h2 : value < 255
    · have hn : 1 ≤ n := by
        rcases Nat.eq_zero_or_pos n with h0 | h0
        · subst h0; simp at hf2; omega
        · exact h0
      have hf2' : 255 - (value + Rate) ≤ ((n : Int) - 1) * Rate := by
        have : (((n + 1 : Nat) : Int) - 1) * Rate = ((n : Int) - 1) * Rate + Rate := by
          push_cast; ring
        rw [this] at hf2; omega
      obtain ⟨fs, f, s1, e, hfv, hlt, hlen⟩ :=
        ih (value + Rate) (fadeAll lib (rampBody lib Rainbow value s)) (by simp [hs])
          (by omega) hn hf2'
      refine ⟨⟨rampBody lib Rainbow value s, value⟩ :: fs, f, s1, ?_, hfv, ?_, ?_⟩
      · rw [rampLoop_succ_below lib Rainbow n value s h2, hs, e]; rfl
      · intro g hg
        simp only [List.mem_cons] at hg
        rcases hg with hg | hg
        · rw [hg]; exact h2
        · exact hlt g hg
      · have hRne : Rate ≠ 0 := by omega
        have e1 : max 0 (255 - value) + Rate - 1 = (255 - value - 1) + 1 * Rate := by
          rw [max_eq_right (by omega)]; ring
        rw [List.length_cons, Nat.cast_succ, hlen, e1, Int.add_mul_ediv_right _ _ hRne]
        congr 1
        by_cases h3 : 0 ≤ 255 - (value + Rate)
        · rw [max_eq_right h3]; congr 1; ring
        · rw [max_eq_left (by omega)]
          rw [Int.ediv_eq_zero_of_lt (by omega) (by omega),
            Int.ediv_eq_zero_of_lt (by omega) (by omega)]
    · refine ⟨[], ⟨rampBody lib Rainbow 255 s, 255⟩, fadeAll lib (rampBody lib Rainbow 255 s),
        ?_, rfl, ?_, ?_⟩
      · rw [rampLoop_succ_top lib Rainbow n value s hv (by omega)]; rfl
      · intro g hg; exact absurd hg (List.not_mem_nil _)
      · rw [max_eq_left (by omega)]
        rw [Int.ediv_eq_zero_of_lt (by omega) (by omega)]; rfl

/-- The step count of `chase` for a `Rate` in 1..255 and fuel of at least 224. -/
theorem chase_steps (lib : FastLED) (fuel : Nat) (Rainbow Fade SlowFade : Bool) (s : State)
    (h1 : 1 ≤ s.Rate) (h2 : s.Rate ≤ 255) (hfuel : 224 ≤ fuel) :
    ∃ (fs : List Flush) (f : Flush) (s1 : State),
      chase lib fuel Rainbow Fade SlowFade s = (fs ++ [f], some s1) ∧ f.value = 255 ∧
      (∀ g ∈ fs, g.value < 255) ∧
      ((fs ++ [f]).length : Int) = (255 - 32 + s.Rate - 1) / s.Rate + 1 := by
  have hf2 : 255 - 32 ≤ ((fuel : Int) - 1) * s.Rate := by
    have : (223 : Int) ≤ (fuel : Int) - 1 := by omega
    nlinarith
  obtain ⟨fs, f, s1, e, hfv, hlt, hlen⟩ :=
    rampLoop_steps lib Rainbow s.Rate h1 h2 fuel 32 (chasePhase Fade SlowFade s) (by simp)
      (by omega) (by omega) hf2
  refine ⟨fs, f, s1, e, hfv, hlt, ?_⟩
  rw [List.length_append, List.length_singleton, Nat.cast_add, hlen]
  norm_num

/-! ### The breach cycle for a base hue up to 253 -/

/-- One breach hue update, by cases on the hue state (all values bytes): below the
transition hue only `ReactorHue` advances; from the transition hue on both advance;
with `ReactorHue = 255` only `MainHue` advances; from `MainHue = 254`,
`ReactorHue = 255` the update resets to `hue`, `hue + 1`. -/
theorem breachHue_cases (s : State) (h0 : 0 ≤ s.hue) (h1 : s.hue ≤ 255)
    (m0 : 0 ≤ s.MainHue) (m1 : s.MainHue ≤ 255) (r0 : 0 ≤ s.ReactorHue)
    (r1 : s.ReactorHue ≤ 255) :
    (s.ReactorHue + 1 ≤ s.hue + (255 - s.hue) / 2 → s.MainHue < 255 →
      (breachHue s).MainHue = s.MainHue ∧ (breachHue s).ReactorHue = s.ReactorHue + 1) ∧
    (s.hue + (255 - s.hue) / 2 ≤ s.ReactorHue → s.MainHue < s.ReactorHue →
      s.ReactorHue < 255 →
      (breachHue s).MainHue = s.MainHue + 1 ∧ (breachHue s).ReactorHue = s.ReactorHue + 1) ∧
    (s.ReactorHue = 255 → s.MainHue < 254 → s.hue < 255 →
      (breachHue s).MainHue = s.MainHue + 1 ∧ (breachHue s).ReactorHue = 255) ∧
    (s.ReactorHue = 255 → s.MainHue = 254 → s.hue < 255 →
      (breachHue s).MainHue = s.hue ∧ (breachHue s).ReactorHue = s.hue + 1) := by
  refine ⟨?_, ?_, ?_, ?_⟩
  all_goals
    intros
    simp only [breachHue, incrementReactorHue, incrementMainHue, byte]
    split_ifs <;> simp only [] at * <;> constructor <;> first | trivial | omega

/-- Phase 1 of the breach cycle: `k` updates while `ReactorHue` stays at or below the
transition hue advance `ReactorHue` by `k` and leave `MainHue`. -/
theorem breachHue_iterate_phase1 (h m : Int) (h0 : 0 ≤ h) (h1 : h ≤ 255) (hm0 : 0 ≤ m)
    (hm : m < 255) (k : Nat) (s : State) (r : Int) (hh : s.hue = h) (hM : s.MainHue = m)
    (hR : s.ReactorHue = r) (hr0 : 0 ≤ r) (hk : r + k ≤ h + (255 - h) / 2) :
    (breachHue^[k] s).hue = h ∧ (breachHue^[k] s).MainHue = m ∧
      (breachHue^[k] s).ReactorHue = r + k := by
  induction k with
  | zero => simp [hh, hM, hR]
  | succ k ih =>
    obtain ⟨i1, i2, i3⟩ := ih (by push_cast at hk; omega)
    rw [Function.iterate_succ_apply']
    generalize breachHue^[k] s = t at i1 i2 i3
    push_cast at hk ⊢
    have hc := (breachHue_cases t (by omega) (by omega) (by omega) (by omega) (by omega)
      (by omega)).1 (by rw [i1, i3]; omega) (by omega)
    refine ⟨by rw [breachHue_hue, i1], by rw [hc.1, i2], by rw [hc.2, i3]; ring⟩

/-- Phase 2: from the transition hue on, `k` updates advance both hue values by `k`,
as long as `ReactorHue` does not pass 255. -/
theorem breachHue_iterate_phase2 (h : Int) (h0 : 0 ≤ h) (h1 : h ≤ 255)
    (k : Nat) (s : State) (m r : Int) (hh : s.hue = h) (hM : s.MainHue = m)
    (hR : s.ReactorHue = r) (hm0 : 0 ≤ m) (hmr : m < r) (hT : h + (255 - h) / 2 ≤ r)
    (hk : r + k ≤ 255) :
    (breachHue^[k] s).hue = h ∧ (breachHue^[k] s).MainHue = m + k ∧
      (breachHue^[k] s).ReactorHue = r + k := by
  induction k with
  | zero => simp [hh, hM, hR]
  | succ k ih =>
    obtain ⟨i1, i2, i3⟩ := ih (by push_cast at hk; omega)
    rw [Function.iterate_succ_apply']
    generalize breachHue^[k] s = t at i1 i2 i3
    push_cast at hk ⊢
    have hc := (breachHue_cases t (by omega) (by omega) (by omega) (by omega) (by omega)
      (by omega)).2.1 (by rw [i1, i3]; omega) (by omega) (by omega)
    refine ⟨by rw [breachHue_hue, i1], by rw [hc.1, i2]; ring, by rw [hc.2, i3]; ring⟩

/-- Phase 3: with `ReactorHue = 255`, `k` updates advance `MainHue` by `k`, up to 254. -/
theorem breachHue_iterate_phase3 (h : Int) (h0 : 0 ≤ h) (h1 : h < 255)
    (k : Nat) (s : State) (m : Int) (hh : s.hue = h) (hM : s.MainHue = m)
    (hR : s.ReactorHue = 255) (hm0 : 0 ≤ m) (hk : m + k ≤ 254) :
    (breachHue^[k] s).hue = h ∧ (breachHue^[k] s).MainHue = m + k ∧
      (breachHue^[k] s).ReactorHue = 255 := by
  induction k with
  | zero => simp [hh, hM, hR]
  | succ k ih =>
    obtain ⟨i1, i2, i3⟩ := ih (by push_cast at hk; omega)
    rw [Function.iterate_succ_apply']
    generalize breachHue^[k] s = t at i1 i2 i3
    push_cast at hk ⊢
    have hc := (breachHue_cases t (by omega) (by omega) (by omega) (by omega) (by omega)
      (by omega)).2.2.1 i3 (by omega) (by omega)
    refine ⟨by rw [breachHue_hue, i1], by rw [hc.1, i2]; ring, hc.2⟩


/-- The breach cycle for a base hue `h` in 0..253: from `MainHue = h`,
`ReactorHue = h + 1` the hue state reaches `MainHue = 254`, `ReactorHue = 255` after
`(255 - h) / 2 + 253 - h` updates, and the next update resets it to the start. -/
theorem breachHue_cycle (h : Int) (h0 : 0 ≤ h) (h1 : h ≤ 253) (s : State)
    (hh : s.hue = h) (hM : s.MainHue = h) (hR : s.ReactorHue = h + 1) :
    (breachHue^[((255 - h) / 2 + 253 - h).toNat] s).MainHue = 254 ∧
    (breachHue^[((255 - h) / 2 + 253 - h).toNat] s).ReactorHue = 255 ∧
    (breachHue^[((255 - h) / 2 + 253 - h).toNat + 1] s).hue = h ∧
    (breachHue^[((255 - h) / 2 + 253 - h).toNat + 1] s).MainHue = h ∧
    (breachHue^[((255 - h) / 2 + 253 - h).toNat + 1] s).ReactorHue = h + 1 := by
  obtain ⟨k1, hk1⟩ : ∃ k1 : Nat, (k1 : Int) = (255 - h) / 2 - 1 :=
    ⟨((255 - h) / 2 - 1).toNat, Int.toNat_of_nonneg (by omega)⟩
  obtain ⟨k2, hk2⟩ : ∃ k2 : Nat, (k2 : Int) = 255 - (h + (255 - h) / 2) :=
    ⟨(255 - (h + (255 - h) / 2)).toNat, Int.toNat_of_nonneg (by omega)⟩
  have hP : ((255 - h) / 2 + 253 - h).toNat = k1 + k2 + k1 := by omega
  obtain ⟨a1, a2, a3⟩ := breachHue_iterate_phase1 h h (by omega) (by omega) (by omega) (by omega)
    k1 s (h + 1) hh hM hR (by omega) (by omega)
  obtain ⟨b1, b2, b3⟩ := breachHue_iterate_phase2 h (by omega) (by omega) k2 (breachHue^[k1] s)
    h (h + 1 + k1) a1 a2 a3 (by omega) (by omega) (by omega) (by omega)
  obtain ⟨c1, c2, c3⟩ := breachHue_iterate_phase3 h (by omega) (by omega) k1
    (breachHue^[k2] (breachHue^[k1] s)) (h + k2) b1 b2 (by rw [b3]; omega) (by omega) (by omega)
  rw [← Function.iterate_add_apply, ← Function.iterate_add_apply, ← hP] at c1 c2 c3
  have hd := (breachHue_cases _ (by omega) (by omega) (by omega) (by omega) (by omega)
      (by omega)).2.2.2 c3 (by rw [c2]; omega) (by omega)
  rw [Function.iterate_succ_apply']
  refine ⟨by rw [c2]; omega, c3, by rw [breachHue_hue, c1], by rw [hd.1, c1], by rw [hd.2, c1]⟩

/-- The state `breachStart h` for a base hue in 0..255. -/
theorem breachStart_fields (h : Int) (h0 : 0 ≤ h) (h1 : h ≤ 255) :
    (breachStart h).hue = h ∧ (breachStart h).MainHue = h ∧ (breachStart h).ReactorHue = h ∧
      (breachStart h).pattern = 2 := by
  have e : h % 256 = h := by omega
  have c1 : ¬ h < 0 := by omega
  have c2 : ¬ h > 255 := by omega
  simp [breachStart, handleSettings, Request.empty, byte, c1, c2, e]

/-- For a base hue `h` in 0..253 the breach hue updates never stall: started from
`MainHue = ReactorHue = h`, the state `MainHue = h`, `ReactorHue = h + 1` recurs
every `(255 - h) / 2 + 254 - h` updates, each time through the reset. -/
theorem breachHue_recurs (h : Int) (h0 : 0 ≤ h) (h1 : h ≤ 253) (n : Nat) :
    (breachHue^[n * (((255 - h) / 2 + 253 - h).toNat + 1) + 1] (breachStart h)).hue = h ∧
    (breachHue^[n * (((255 - h) / 2 + 253 - h).toNat + 1) + 1] (breachStart h)).MainHue = h ∧
    (breachHue^[n * (((255 - h) / 2 + 253 - h).toNat + 1) + 1] (breachStart h)).ReactorHue
      = h + 1 := by
  obtain ⟨f1, f2, f3, _⟩ := breachStart_fields h h0 (by omega)
  induction n with
  | zero =>
    rw [Nat.zero_mul, Nat.zero_add, Function.iterate_one]
    have hc := (breachHue_cases (breachStart h) (by omega) (by omega) (by omega) (by omega)
      (by omega) (by omega)).1 (by rw [f1, f3]; omega) (by omega)
    exact ⟨by rw [breachHue_hue, f1], by rw [hc.1, f2], by rw [hc.2, f3]⟩
  | succ n ih =>
    have e : (n + 1) * (((255 - h) / 2 + 253 - h).toNat + 1) + 1
        = (((255 - h) / 2 + 253 - h).toNat + 1)
          + (n * (((255 - h) / 2 + 253 - h).toNat + 1) + 1) := by ring
    rw [e, Function.iterate_add_apply]
    exact (breachHue_cycle h h0 h1 _ ih.1 ih.2.1 ih.2.2).2.2

/-! ### The chase offsets and the stages of the breach update -/

/-- The loop of line 267 runs its body at the offsets of `chasesVisited`, in order. -/
theorem chasesLoop_eq_foldl (lib : FastLED) (value : Int) (n : Nat) (chases : Int) (s : State) :
    chasesLoop lib value n chases s
      = (chasesVisited n chases).foldl (fun t c => chaseBody lib value c t) s := by
  induction n generalizing chases s with
  | zero => rfl
  | succ n ih =>
    unfold chasesLoop chasesVisited
    split_ifs
    · rw [ih]; rfl
    · rfl

theorem chaseOffsets_eq : chaseOffsets = [0, 10, 20, 30, 40, 50, 60] := by decide

/-- The breach hue update is the reactor update, the main hue update and the reset,
in this order. -/
theorem breachHue_eq_stages (s : State) :
    breachHue s = breachResetStep (breachMainStep (breachReactorStep s)) := by
  have e : (breachReactorStep s).hue = s.hue := by
    unfold breachReactorStep incrementReactorHue; split_ifs <;> rfl
  unfold breachHue breachResetStep breachMainStep transition_hue
  rw [e]
  rfl

/-! ### A breach tick as a whole -/

theorem sameHues_refl (s : State) : sameHues s s := ⟨rfl, rfl, rfl, rfl⟩

theorem sameHues_trans {s t u : State} (h1 : sameHues s t) (h2 : sameHues t u) :
    sameHues s u :=
  ⟨h2.1.trans h1.1, h2.2.1.trans h1.2.1, h2.2.2.1.trans h1.2.2.1, h2.2.2.2.trans h1.2.2.2⟩

theorem chaseBody_sameHues (lib : FastLED) (value chases : Int) (s : State) :
    sameHues s (chaseBody lib value chases s) := by
  simp only [chaseBody]; split_ifs <;> exact ⟨rfl, rfl, rfl, rfl⟩

theorem chasesLoop_sameHues (lib : FastLED) (value : Int) (n : Nat) (chases : Int) (s : State) :
    sameHues s (chasesLoop lib value n chases s) := by
  induction n generalizing chases s with
  | zero => exact sameHues_refl s
  | succ n ih =>
    unfold chasesLoop
    split_ifs
    · exact sameHues_trans (chaseBody_sameHues lib value chases s) (ih _ _)
    · exact sameHues_refl s

theorem reactionLoop_sameHues (lib : FastLED) (n : Nat) (reaction : Int) (s : State) :
    sameHues s (reactionLoop lib n reaction s) := by
  induction n generalizing reaction s with
  | zero => exact sameHues_refl s
  | succ n ih =>
    unfold reactionLoop
    split_ifs
    · exact sameHues_trans (s := s) ⟨rfl, rfl, rfl, rfl⟩ (ih _ _)
    · exact sameHues_refl s

theorem rampBody_sameHues (lib : FastLED) (value : Int) (s : State) :
    sameHues s (rampBody lib false value s) := by
  unfold rampBody
  exact sameHues_trans (chasesLoop_sameHues lib value _ 0 s) (reactionLoop_sameHues lib _ 0 _)

theorem chasePhase_sameHues (s : State) : sameHues s (chasePhase false false s) := by
  simp only [chasePhase, Bool.false_eq_true, if_false]
  split_ifs <;> exact ⟨rfl, rfl, rfl, rfl⟩

theorem fadeAll_sameHues (lib : FastLED) (s : State) : sameHues s (fadeAll lib s) :=
  ⟨rfl, rfl, rfl, rfl⟩

theorem setRate_sameHues (s : State) (r : Int) : sameHues s { s with Rate := r } :=
  ⟨rfl, rfl, rfl, rfl⟩

/-- Without the rainbow flag the ramp loop ends with the hue variables it started with. -/
theorem rampLoop_final_sameHues (lib : FastLED) (fuel : Nat) (value : Int) (s t : State)
    (h : (rampLoop lib false fuel value s).2 = some t) : sameHues s t := by
  induction fuel generalizing value s with
  | zero => simp [rampLoop] at h
  | succ n ih =>
    by_cases h1 : value < 512
    · by_cases h2 : value < 255
      · rw [rampLoop_succ_below lib false n value s h2] at h
        exact sameHues_trans (sameHues_trans (rampBody_sameHues lib value s)
          (fadeAll_sameHues lib _)) (ih _ _ h)
      · rw [rampLoop_succ_top lib false n value s h1 (by omega)] at h
        simp only [Option.some.injEq] at h
        subst h
        exact sameHues_trans (rampBody_sameHues lib 255 s) (fadeAll_sameHues lib _)
    · unfold rampLoop at h
      simp only [h1, if_false, Option.some.injEq] at h
      subst h
      exact sameHues_refl s

@[simp] theorem breachHue_pattern (s : State) : (breachHue s).pattern = s.pattern := by
  simp only [breachHue, incrementReactorHue, incrementMainHue]
  split_ifs <;> rfl

/-- A breach tick with base hue in 0..246 whose hue update leaves
`0 ≤ ReactorHue - MainHue ≤ 255 - hue` has a result and ends (fuel of 224 or more),
with the hue variables of the hue update. -/
theorem tick_breach (lib : FastLED) (fuel : Nat) (hfuel : 224 ≤ fuel) (s : State)
    (hp : s.pattern = 2) (h0 : 0 ≤ s.hue) (h1 : s.hue ≤ 246)
    (hd0 : 0 ≤ (breachHue s).ReactorHue - (breachHue s).MainHue)
    (hd1 : (breachHue s).ReactorHue - (breachHue s).MainHue ≤ 255 - s.hue) :
    ∃ t : State, tick lib fuel s = some t ∧ sameHues (breachHue s) t := by
  have hb : byte (255 - s.hue) = 255 - s.hue := by unfold byte; omega
  have hdpos : 0 < (255 - s.hue) / 9 := by omega
  have hd : ¬ (255 - s.hue) / 9 = 0 := by omega
  have hne : ¬ s.pattern = 1 := by omega
  have hq := Int.tdiv_eq_ediv hd0 (le_of_lt hdpos)
  have hq0 : 0 ≤ ((breachHue s).ReactorHue - (breachHue s).MainHue) / ((255 - s.hue) / 9) :=
    Int.ediv_nonneg hd0 (le_of_lt hdpos)
  have hq1 : ((breachHue s).ReactorHue - (breachHue s).MainHue) / ((255 - s.hue) / 9) < 18 := by
    apply Int.ediv_lt_of_lt_mul hdpos
    omega
  have hr : breachRate (breachHue s) = some (((((breachHue s).ReactorHue
      - (breachHue s).MainHue) / ((255 - s.hue) / 9) + 1) * 2) % 256) := by
    unfold breachRate
    simp only [breachHue_hue, hb, hd, if_false, RateMultiplier, hq]
    rfl
  have hr1 : 1 ≤ ((((breachHue s).ReactorHue - (breachHue s).MainHue) / ((255 - s.hue) / 9) + 1)
      * 2) % 256 := by omega
  have hr2 : ((((breachHue s).ReactorHue - (breachHue s).MainHue) / ((255 - s.hue) / 9) + 1)
      * 2) % 256 ≤ 255 := by omega
  revert hr1 hr2
  generalize ((((breachHue s).ReactorHue - (breachHue s).MainHue) / ((255 - s.hue) / 9) + 1) * 2)
    % 256 = r at hr
  intro hr1 hr2
  obtain ⟨fs, f, t, e, _, _, _⟩ := chase_steps lib fuel false false false
    { breachHue s with Rate := r } hr1 hr2 hfuel
  refine ⟨t, ?_, ?_⟩
  · unfold tick loop
    rw [if_neg hne, if_pos hp]
    unfold breachUpdate
    simp only [hr, Option.map_some', Option.some_bind, e]
  · have h2 : (chase lib fuel false false false { breachHue s with Rate := r }).2 = some t := by
      rw [e]
    exact sameHues_trans (sameHues_trans (setRate_sameHues (breachHue s) r)
      (chasePhase_sameHues _)) (rampLoop_final_sameHues lib fuel 32 _ t h2)

/-- A breach tick, given the hue values `m`, `r` its hue update produces. -/
theorem tick_breach_fields (lib : FastLED) (fuel : Nat) (hfuel : 224 ≤ fuel) (s : State)
    (hp : s.pattern = 2) (h0 : 0 ≤ s.hue) (h1 : s.hue ≤ 246) (m r : Int)
    (hm : (breachHue s).MainHue = m) (hr : (breachHue s).ReactorHue = r)
    (hd0 : 0 ≤ r - m) (hd1 : r - m ≤ 255 - s.hue) :
    ∃ t : State, tick lib fuel s = some t ∧ t.hue = s.hue ∧ t.pattern = 2 ∧
      t.MainHue = m ∧ t.ReactorHue = r := by
  obtain ⟨t, e, g1, g2, g3, g4⟩ := tick_breach lib fuel hfuel s hp h0 h1
    (by rw [hm, hr]; exact hd0) (by rw [hm, hr]; exact hd1)
  exact ⟨t, e, by rw [g1, breachHue_hue], by rw [g4, breachHue_pattern, hp],
    by rw [g2, hm], by rw [g3, hr]⟩

/-- The breach ticks from `hue = MainHue = ReactorHue = 160`: after `n ≤ 141` ticks
`ReactorHue` is `160 + n` capped at 255 and `MainHue` is 160 up to tick 47 and
`160 + (n - 47)` from then on. -/
theorem breach160_trajectory (lib : FastLED) (fuel : Nat) (hfuel : 224 ≤ fuel) (s : State)
    (hp : s.pattern = 2) (hh : s.hue = 160) (hM : s.MainHue = 160) (hR : s.ReactorHue = 160)
    (n : Nat) (hn : n ≤ 141) :
    ∃ t : State, ticks lib fuel n s = some t ∧ t.hue = 160 ∧ t.pattern = 2 ∧
      t.MainHue = max 160 (113 + (n : Int)) ∧ t.ReactorHue = min 255 (160 + (n : Int)) := by
  induction n with
  | zero => exact ⟨s, rfl, hh, hp, by rw [hM]; decide, by rw [hR]; decide⟩
  | succ n ih =>
    obtain ⟨t, e, t1, t2, t3, t4⟩ := ih (by omega)
    have e' : ticks lib fuel (n + 1) s = tick lib fuel t := by
      show (ticks lib fuel n s).bind (tick lib fuel) = _
      rw [e]; rfl
    rw [e']
    push_cast
    have b1 : 0 ≤ t.hue := by omega
    have b2 : t.hue ≤ 255 := by omega
    have b3 : 0 ≤ t.MainHue := by omega
    have b4 : t.MainHue ≤ 255 := by omega
    have b5 : 0 ≤ t.ReactorHue := by omega
    have b6 : t.ReactorHue ≤ 255 := by omega
    have fin : ∀ m r : Int, (breachHue t).MainHue = m ∧ (breachHue t).ReactorHue = r →
        0 ≤ r - m → r - m ≤ 95 → m = max 160 (113 + ((n : Int) + 1)) →
        r = min 255 (160 + ((n : Int) + 1)) →
        ∃ u : State, tick lib fuel t = some u ∧ u.hue = 160 ∧ u.pattern = 2 ∧
          u.MainHue = max 160 (113 + ((n : Int) + 1)) ∧
          u.ReactorHue = min 255 (160 + ((n : Int) + 1)) := by
      intro m r hmr hd0 hd1 em er
      obtain ⟨u, eu, u1, u2, u3, u4⟩ := tick_breach_fields lib fuel hfuel t t2 b1
        (by omega) m r hmr.1 hmr.2 hd0 (by omega)
      exact ⟨u, eu, by rw [u1, t1], u2, by rw [u3, em], by rw [u4, er]⟩
    by_cases c1 : n ≤ 46
    · have a1 : t.ReactorHue + 1 ≤ t.hue + (255 - t.hue) / 2 := by omega
      have a2 : t.MainHue < 255 := by omega
      have a3 : 0 ≤ t.ReactorHue + 1 - t.MainHue := by omega
      have a4 : t.ReactorHue + 1 - t.MainHue ≤ 95 := by omega
      have a5 : t.MainHue = max 160 (113 + ((n : Int) + 1)) := by omega
      have a6 : t.ReactorHue + 1 = min 255 (160 + ((n : Int) + 1)) := by omega
      exact fin _ _ ((breachHue_cases t b1 b2 b3 b4 b5 b6).1 a1 a2) a3 a4 a5 a6
    · by_cases c2 : n ≤ 94
      · have a0 : t.hue + (255 - t.hue) / 2 ≤ t.ReactorHue := by omega
        have a1 : t.MainHue < t.ReactorHue := by omega
        have a2 : t.ReactorHue < 255 := by omega
        have a3 : 0 ≤ t.ReactorHue + 1 - (t.MainHue + 1) := by omega
        have a4 : t.ReactorHue + 1 - (t.MainHue + 1) ≤ 95 := by omega
        have a5 : t.MainHue + 1 = max 160 (113 + ((n : Int) + 1)) := by omega
        have a6 : t.ReactorHue + 1 = min 255 (160 + ((n : Int) + 1)) := by omega
        exact fin _ _ ((breachHue_cases t b1 b2 b3 b4 b5 b6).2.1 a0 a1 a2) a3 a4 a5 a6
      · have a0 : t.ReactorHue = 255 := by omega
        have a1 : t.MainHue < 254 := by omega
        have a2 : t.hue < 255 := by omega
        have a3 : 0 ≤ 255 - (t.MainHue + 1) := by omega
        have a4 : 255 - (t.MainHue + 1) ≤ 95 := by omega
        have a5 : t.MainHue + 1 = max 160 (113 + ((n : Int) + 1)) := by omega
        have a6 : (255 : Int) = min 255 (160 + ((n : Int) + 1)) := by omega
        exact fin _ _ ((breachHue_cases t b1 b2 b3 b4 b5 b6).2.2.1 a0 a1 a2) a3 a4 a5 a6

/-- Tick 142 from `hue = MainHue = ReactorHue = 160`: `MainHue` goes from 254 to 255
and the reset leaves `MainHue = 160`, `ReactorHue = 161`. -/
theorem breach160_reset (lib : FastLED) (fuel : Nat) (hfuel : 224 ≤ fuel) (s : State)
    (hp : s.pattern = 2) (hh : s.hue = 160) (hM : s.MainHue = 160) (hR : s.ReactorHue = 160) :
    ∃ t u : State, ticks lib fuel 141 s = some t ∧ t.MainHue = 254 ∧ t.ReactorHue = 255 ∧
      (breachMainStep (breachReactorStep t)).MainHue = 255 ∧
      ticks lib fuel 142 s = some u ∧ u.MainHue = 160 ∧ u.ReactorHue = 161 := by
  obtain ⟨t, e, t1, t2, t3, t4⟩ := breach160_trajectory lib fuel hfuel s hp hh hM hR 141 (by omega)
  have t3' : t.MainHue = 254 := by rw [t3]; decide
  have t4' : t.ReactorHue = 255 := by rw [t4]; decide
  have hc := (breachHue_cases t (by omega) (by omega) (by omega) (by omega) (by omega)
      (by omega)).2.2.2 t4' t3' (by omega)
  obtain ⟨u, eu, _, _, u3, u4⟩ := tick_breach_fields lib fuel hfuel t t2 (by omega) (by omega)
    t.hue (t.hue + 1) hc.1 hc.2 (by omega) (by omega)
  refine ⟨t, u, e, t3', t4', ?_, ?_, by rw [u3, t1], by rw [u4, t1]; rfl⟩
  · simp [breachMainStep, breachReactorStep, transition_hue, incrementMainHue, byte, t1, t3', t4']
  · show (ticks lib fuel 141 s).bind (tick lib fuel) = _
    rw [e]; exact eu

/-! ### The bottom check and the breach threshold -/

/-- The bottom check over the offsets the compiled loop enumerates (0, 10, ..., 60) and
the pulse phases 0..9: a valid bottom index lies in `[11, 28)`; it lies in the
reaction zone exactly at offset 20 with phase 0 or 1, and at the offsets 0 and 10
it lies in the bottom zone `[13, 28)`. -/
theorem bottom_index_range (Pulse chases : Int) (hp0 : 0 ≤ Pulse) (hp1 : Pulse ≤ 9)
    (hc : chases ∈ chaseOffsets) (hv : bottomValid Pulse chases = true) :
    TopLEDcount + 1 ≤ bottomIndex Pulse chases ∧ bottomIndex Pulse chases < NUM_LEDS ∧
    (bottomIndex Pulse chases < TopLEDcount + ReactionLEDcount ↔ chases = 20 ∧ Pulse ≤ 1) ∧
    (chases ≤ 10 → TopLEDcount + ReactionLEDcount ≤ bottomIndex Pulse chases) := by
  have hN : NUM_LEDS = 28 := by decide
  rw [chaseOffsets_eq] at hc
  simp only [List.mem_cons, List.mem_singleton, List.not_mem_nil, or_false] at hc
  simp only [bottomValid, bottomIndex, byte, abs_TopDiff, hN, TopLEDcount, ReactionLEDcount,
    Bool.and_eq_true, decide_eq_true_eq] at hv ⊢
  omega

/-- The bottom check at pulse phase 0 and offset 20: the valid bottom index is 12. -/
theorem bottom_index_range_witness :
    bottomValid 0 20 = true ∧ bottomIndex 0 20 = 12 ∧
    TopLEDcount + 1 ≤ bottomIndex 0 20 ∧ bottomIndex 0 20 < NUM_LEDS :=
  ⟨by decide, by decide,
    (bottom_index_range 0 20 (by decide) (by decide) (by decide) (by decide)).1,
    (bottom_index_range 0 20 (by decide) (by decide) (by decide) (by decide)).2.1⟩

/-- The hue update of a breach tick and the ticks from hue 160. The transition
threshold is `hue + (255 - hue) / 2`, at most 255 (207 for hue 160). If `ReactorHue`
after the reactor update is at most the threshold, the hue update leaves `MainHue`
unchanged; if it exceeds the threshold and `MainHue < 255`, the main hue update adds
exactly 1, and the hue update ends with that value unless the reset (both at 255)
puts `MainHue` back to `hue`. From `hue = MainHue = ReactorHue = 160` the ticks have
a result and end, `MainHue` is 160 after each of the first 47 ticks,
`160 + (n - 47)` after tick `n` for `48 ≤ n ≤ 141`, and tick 142 increments it to
255 and resets it to 160. -/
theorem breach_threshold_governs_MainHue (lib : FastLED) (fuel : Nat) (hfuel : 224 ≤ fuel)
    (s : State) (h0 : 0 ≤ s.hue) (h1 : s.hue ≤ 255) (m0 : 0 ≤ s.MainHue)
    (m1 : s.MainHue ≤ 255) (r0 : 0 ≤ s.ReactorHue) (r1 : s.ReactorHue ≤ 255) :
    transition_hue s = s.hue + (255 - s.hue) / 2 ∧ transition_hue s ≤ 255 ∧
    (s.hue = 160 → transition_hue s = 207) ∧
    ((breachReactorStep s).ReactorHue ≤ transition_hue s →
      (breachHue s).MainHue = s.MainHue) ∧
    ((breachReactorStep s).ReactorHue > transition_hue s → s.MainHue < 255 →
      (breachMainStep (breachReactorStep s)).MainHue = s.MainHue + 1 ∧
      ((breachHue s).MainHue = s.MainHue + 1 ∨
        ((breachReactorStep s).ReactorHue ≥ 255 ∧ s.MainHue + 1 = 255 ∧
          (breachHue s).MainHue = s.hue))) ∧
    (s.pattern = 2 → s.hue = 160 → s.MainHue = 160 → s.ReactorHue = 160 →
      (∀ n : Nat, n ≤ 47 → ∃ t : State, ticks lib fuel n s = some t ∧ t.MainHue = 160) ∧
      (∀ n : Nat, 48 ≤ n → n ≤ 141 →
        ∃ t : State, ticks lib fuel n s = some t ∧ t.MainHue = 160 + ((n : Int) - 47)) ∧
      (∃ t u : State, ticks lib fuel 141 s = some t ∧
        (breachMainStep (breachReactorStep t)).MainHue = 255 ∧
        ticks lib fuel 142 s = some u ∧ u.MainHue = 160 ∧ u.ReactorHue = 161)) := by
  have eT : transition_hue s = s.hue + (255 - s.hue) / 2 := by
    unfold transition_hue byte; omega
  refine ⟨eT, by rw [eT]; omega, by intro h; rw [eT]; omega, ?_, ?_, ?_⟩
  · rw [eT]
    intro h
    simp only [breachReactorStep, incrementReactorHue, byte] at h
    simp only [breachHue, incrementReactorHue, incrementMainHue, byte]
    split_ifs at h ⊢ <;> simp only [] at * <;> omega
  · rw [eT]
    intro h hm
    simp only [breachReactorStep, incrementReactorHue, byte] at h
    simp only [breachHue, breachMainStep, breachReactorStep, transition_hue,
      incrementReactorHue, incrementMainHue, byte]
    split_ifs at h ⊢ <;> simp only [] at * <;> (try simp only [and_true]) <;> omega
  · intro hp hh hM hR
    refine ⟨?_, ?_, ?_⟩
    · intro n hn
      obtain ⟨t, e, _, _, t3, _⟩ :=
        breach160_trajectory lib fuel hfuel s hp hh hM hR n (by omega)
      exact ⟨t, e, by rw [t3]; omega⟩
    · intro n hn1 hn2
      obtain ⟨t, e, _, _, t3, _⟩ :=
        breach160_trajectory lib fuel hfuel s hp hh hM hR n hn2
      exact ⟨t, e, by rw [t3]; omega⟩
    · obtain ⟨t, u, e1, _, _, e2, e3, e4, e5⟩ := breach160_reset lib fuel hfuel s hp hh hM hR
      exact ⟨t, u, e1, e2, e3, e4, e5⟩

/-- The ticks from the state after `/settings?pattern=2&hue=160`: the threshold is 207,
`MainHue` is 160 after tick 47 and 161 after tick 48. -/
theorem breach_threshold_governs_MainHue_witness :
    transition_hue (breachStart 160) = 207 ∧
    (∃ t : State, ticks sampleLib 224 47 (breachStart 160) = some t ∧ t.MainHue = 160) ∧
    (∃ t : State, ticks sampleLib 224 48 (breachStart 160) = some t ∧ t.MainHue = 161) := by
  obtain ⟨f1, f2, f3, f4⟩ := breachStart_fields 160 (by decide) (by decide)
  have h := breach_threshold_governs_MainHue sampleLib 224 (by decide) (breachStart 160)
    (by rw [f1]; decide) (by rw [f1]; decide) (by rw [f2]; decide) (by rw [f2]; decide)
    (by rw [f3]; decide) (by rw [f3]; decide)
  obtain ⟨_, _, hT, _, _, htraj⟩ := h
  obtain ⟨ha, hb, _⟩ := htraj f4 f1 f2 f3
  refine ⟨hT f1, ha 47 (by decide), ?_⟩
  obtain ⟨t, e, ht⟩ := hb 48 (by decide) (by decide)
  exact ⟨t, e, by rw [ht]; decide⟩

/-- C1: for the compiled layout (28 cells) and every pulse phase and chase offset,
a top index that passes the check of line 270 and a bottom index that passes the
check of line 273 lie in `[0, 28)`, and when both pass for the same pair the two
indices differ. -/
theorem chase_indices_in_bounds_distinct (Pulse chases : Int) :
    NUM_LEDS = 28 ∧
    (topValid Pulse chases = true →
      0 ≤ topIndex Pulse chases ∧ topIndex Pulse chases < NUM_LEDS) ∧
    (bottomValid Pulse chases = true →
      0 ≤ bottomIndex Pulse chases ∧ bottomIndex Pulse chases < NUM_LEDS) ∧
    (topValid Pulse chases = true → bottomValid Pulse chases = true →
      topIndex Pulse chases ≠ bottomIndex Pulse chases) := by
  have hN : NUM_LEDS = 28 := by decide
  simp only [topValid, bottomValid, topIndex, bottomIndex, byte, abs_TopDiff, hN, TopLEDtotal,
    TopLEDcount, ReactionLEDcount, Bool.and_eq_true, decide_eq_true_eq]
  refine ⟨trivial, ?_, ?_, ?_⟩
  · intro h; omega
  · intro h; omega
  · intro h1 h2; omega

/-- C1 at phase 5, offset 0: both checks pass, the indices are 5 and 27. -/
theorem chase_indices_in_bounds_distinct_witness :
    topValid 5 0 = true ∧ bottomValid 5 0 = true ∧ topIndex 5 0 = 5 ∧ bottomIndex 5 0 = 27 ∧
    topIndex 5 0 ≠ bottomIndex 5 0 :=
  ⟨by decide, by decide, by decide, by decide,
    (chase_indices_in_bounds_distinct 5 0).2.2.2 (by decide) (by decide)⟩

/-- C2: whatever integer `t` the request carries for a field, `handleSettings`
stores `t` clamped to the range of the field (pattern 1..5, brightness, hue and
saturation 0..255, warpFactor 1..9) and sets `Rate` to twice the clamped
warpFactor; brightness 999 stores 255, warpFactor 0 stores 1 with `Rate` 2. -/
theorem handleSettings_clamps (s : State) (req : Request) (t : Int) :
    (handleSettings s { req with pattern := some t }).pattern = clamp 1 5 t ∧
    (handleSettings s { req with brightness := some t }).brightness = clamp 0 255 t ∧
    (handleSettings s { req with hue := some t }).hue = clamp 0 255 t ∧
    (handleSettings s { req with saturation := some t }).saturation = clamp 0 255 t ∧
    (handleSettings s { req with warpFactor := some t }).warp_factor = clamp 1 9 t ∧
    (handleSettings s { req with warpFactor := some t }).Rate = 2 * clamp 1 9 t ∧
    (handleSettings s { req with brightness := some 999 }).brightness = 255 ∧
    (handleSettings s { req with warpFactor := some 0 }).warp_factor = 1 ∧
    (handleSettings s { req with warpFactor := some 0 }).Rate = 2 := by
  refine ⟨?_, ?_, ?_, ?_, ?_, ?_, ?_, ?_, ?_⟩
  · unfold handleSettings clamp byte
    cases req.brightness <;> cases req.hue <;> cases req.saturation <;> cases req.warpFactor <;>
      simp only [] <;> split_ifs <;> omega
  · unfold handleSettings clamp byte
    cases req.pattern <;> cases req.hue <;> cases req.saturation <;> cases req.warpFactor <;>
      simp only [] <;> split_ifs <;> omega
  · unfold handleSettings clamp byte
    cases req.pattern <;> cases req.brightness <;> cases req.saturation <;>
      cases req.warpFactor <;> simp only [] <;> split_ifs <;> omega
  · unfold handleSettings clamp byte
    cases req.pattern <;> cases req.brightness <;> cases req.hue <;> cases req.warpFactor <;>
      simp only [] <;> split_ifs <;> omega
  · unfold handleSettings clamp byte
    simp only []; split_ifs <;> omega
  · unfold handleSettings clamp byte RateMultiplier
    simp only []; split_ifs <;> omega
  · unfold handleSettings byte
    cases req.pattern <;> cases req.hue <;> cases req.saturation <;> cases req.warpFactor <;>
      simp
  · unfold handleSettings byte
    simp
  · unfold handleSettings byte RateMultiplier
    simp

/-- C3: `mqttMessageReceived` stores the payload reduced modulo 256, without the
clamp of `handleSettings`. On the warpFactor topic the payload 0 leaves
`warp_factor = 0` and `Rate = 0` (and with `Rate = 0` the ramp loop of the next
`chase` never ends); on the brightness topic 999 stores 231; on the pattern topic
300 stores 44. -/
theorem mqttMessageReceived_not_clamped :
    (mqttMessageReceived initState ⟨false, false, false, false, true⟩ 0).warp_factor = 0 ∧
    (mqttMessageReceived initState ⟨false, false, false, false, true⟩ 0).Rate = 0 ∧
    (mqttMessageReceived initState ⟨false, false, false, false, true⟩ 0).warp_factor
      ≠ clamp 1 9 0 ∧
    (mqttMessageReceived initState ⟨false, false, true, false, false⟩ 999).brightness = 231 ∧
    clamp 0 255 999 = 255 ∧
    (mqttMessageReceived initState ⟨true, false, false, false, false⟩ 300).pattern = 44 ∧
    (∀ (lib : FastLED) (fuel : Nat),
      (chase lib fuel false false false
        (mqttMessageReceived initState ⟨false, false, false, false, true⟩ 0)).2 = none) := by
  refine ⟨by decide, by decide, by decide, by decide, by decide, by decide, ?_⟩
  intro lib fuel
  exact rampLoop_Rate_zero lib false fuel 32 _ (by simp; decide) (by decide)

/-- C4: when the pattern id is outside 1..5, the pattern switch has a result, flushes
no frame, sets the pattern id to the default 1 and leaves every other variable as
it was; the tick that follows is the tick of pattern 1 on that state. -/
theorem loop_unknown_pattern_resets (lib : FastLED) (fuel : Nat) (s : State)
    (h : ¬ (1 ≤ s.pattern ∧ s.pattern ≤ 5)) :
    loop lib fuel s = some ([], some { s with pattern := 1 }) ∧
    ∀ fuel2 : Nat, loop lib fuel2 { s with pattern := 1 } =
      some (chase lib fuel2 false false false { s with pattern := 1, ReactorHue := s.MainHue }) := by
  constructor
  · unfold loop
    have h1 : ¬ s.pattern = 1 := by omega
    have h2 : ¬ s.pattern = 2 := by omega
    have h3 : ¬ s.pattern = 3 := by omega
    have h4 : ¬ s.pattern = 4 := by omega
    have h5 : ¬ s.pattern = 5 := by omega
    simp only [h1, h2, h3, h4, h5, if_false, DefaultPattern]
  · intro fuel2
    simp [loop]

/-- C4 at the pattern id 0 (what the payload 0 on the pattern topic stores). -/
theorem loop_unknown_pattern_resets_witness :
    ¬ (1 ≤ ({ initState with pattern := 0 } : State).pattern ∧
        ({ initState with pattern := 0 } : State).pattern ≤ 5) ∧
    loop sampleLib 300 { initState with pattern := 0 } =
      some ([], some { ({ initState with pattern := 0 } : State) with pattern := 1 }) :=
  ⟨by decide,
    (loop_unknown_pattern_resets sampleLib 300 { initState with pattern := 0 } (by decide)).1⟩

/-- C5: `incrementReactorHue` tests `MainHue`, not `ReactorHue`: with `MainHue = 255`
it sets `ReactorHue` to 0 whatever it was (100 goes to 0, not 101), and
`incrementHue` from `MainHue = ReactorHue = 254` leaves `MainHue = 255` and
`ReactorHue = 0`, not 255. `incrementMainHue` is a single step with wrap, and so is
`incrementReactorHue` as long as `MainHue` is not 255. -/
theorem incrementReactorHue_tests_MainHue :
    (incrementReactorHue { initState with MainHue := 255, ReactorHue := 100 }).ReactorHue = 0 ∧
    (100 + 1) % 256 ≠ (0 : Int) ∧
    (incrementHue { initState with MainHue := 254, ReactorHue := 254 }).MainHue = 255 ∧
    (incrementHue { initState with MainHue := 254, ReactorHue := 254 }).ReactorHue = 0 ∧
    (254 + 1) % 256 ≠ (0 : Int) ∧
    (∀ s : State, (incrementMainHue s).MainHue = (s.MainHue + 1) % 256) ∧
    (∀ s : State, s.MainHue ≠ 255 →
      (incrementReactorHue s).ReactorHue = (s.ReactorHue + 1) % 256) := by
  refine ⟨by decide, by decide, by decide, by decide, by decide, ?_, ?_⟩
  · intro s
    by_cases h : s.MainHue = 255
    · simp [incrementMainHue, h]
    · simp [incrementMainHue, h, byte]
  · intro s h
    simp [incrementReactorHue, h, byte]

/-- C6: with base hue 255, starting from `MainHue = ReactorHue = 255`, the first
breach hue update resets to `MainHue = 255`, `ReactorHue = 0`, and every later
update leaves exactly that state: `ReactorHue` never reaches 255 again, so the
reset never recurs. The tick itself has no result, its rate divisor being 0. -/
theorem breach_cycle_stalls_at_hue_255 :
    (breachStart 255).hue = 255 ∧ (breachStart 255).MainHue = 255 ∧
    (breachStart 255).ReactorHue = 255 ∧ (breachStart 255).pattern = 2 ∧
    (∀ n : Nat, (breachHue^[n + 1] (breachStart 255)).MainHue = 255 ∧
      (breachHue^[n + 1] (breachStart 255)).ReactorHue = 0) ∧
    (∀ (lib : FastLED) (fuel : Nat), loop lib fuel (breachStart 255) = none) := by
  have e1 : (breachStart 255).hue = 255 := by decide
  have e2 : (breachStart 255).MainHue = 255 := by decide
  have e3 : (breachStart 255).ReactorHue = 255 := by decide
  have e4 : (breachStart 255).pattern = 2 := by decide
  refine ⟨e1, e2, e3, e4, ?_, ?_⟩
  · have key : ∀ n : Nat, (breachHue^[n + 1] (breachStart 255)).hue = 255 ∧
        (breachHue^[n + 1] (breachStart 255)).MainHue = 255 ∧
        (breachHue^[n + 1] (breachStart 255)).ReactorHue = 0 := by
      intro n
      induction n with
      | zero =>
        simp [breachHue, incrementReactorHue, incrementMainHue, byte, e1, e2, e3]
      | succ k ih =>
        rw [Function.iterate_succ_apply']
        exact breachHue_stalled _ ih.1 ih.2.1 ih.2.2
    exact fun n => (key n).2
  · intro lib fuel
    simp [loop, e4, breachUpdate, breachRate, byte, e1]

/-- C7, as stated, fails: in the tick from `hue = 160`, `MainHue = 160`,
`ReactorHue = 164` the hue update gives `ReactorHue = 165`; the program sets
`Rate = (5 / (95 / 9) + 1) * 2 = 2`, the formula of the claim gives
`(5 / (47 / 9) + 1) * 2 = 4`. -/
theorem breach_rate_differs_from_spec_formula :
    (breachHue { initState with pattern := 2, ReactorHue := 164 }).ReactorHue = 165 ∧
    (breachHue { initState with pattern := 2, ReactorHue := 164 }).MainHue = 160 ∧
    (breachUpdate { initState with pattern := 2, ReactorHue := 164 }).map (fun s => s.Rate)
      = some 2 ∧
    specBreachRate (breachHue { initState with pattern := 2, ReactorHue := 164 }) = 4 ∧
    (breachUpdate { initState with pattern := 2, ReactorHue := 164 }).map (fun s => s.Rate)
      ≠ some (specBreachRate (breachHue { initState with pattern := 2, ReactorHue := 164 })) := by
  refine ⟨by decide, by decide, by decide, by decide, by decide⟩

/-- C7, amended: in a breach-mode tick with base hue in 0..246 the state handed to
`chase` has the hue values of the hue update and
`Rate = ((ReactorHue - MainHue) / ((255 - hue) / 9) + 1) * 2` modulo 256, with the
truncating quotient on the hue values after the update; every frame of the tick is
flushed with that `Rate`. -/
theorem breach_rate_formula (lib : FastLED) (fuel : Nat) (s : State)
    (hp : s.pattern = 2) (h0 : 0 ≤ s.hue) (h1 : s.hue ≤ 246) :
    ∃ s1 : State,
      loop lib fuel s = some (chase lib fuel false false false s1) ∧
      s1.MainHue = (breachHue s).MainHue ∧ s1.ReactorHue = (breachHue s).ReactorHue ∧
      s1.Rate = ((((breachHue s).ReactorHue - (breachHue s).MainHue).tdiv ((255 - s.hue) / 9) + 1)
                  * 2) % 256 ∧
      ∀ f ∈ (chase lib fuel false false false s1).1, f.st.Rate = s1.Rate := by
  have hb : byte (255 - s.hue) = 255 - s.hue := by unfold byte; omega
  have hd : ¬ (255 - s.hue) / 9 = 0 := by omega
  have hne : ¬ s.pattern = 1 := by omega
  refine ⟨{ breachHue s with Rate := ((((breachHue s).ReactorHue - (breachHue s).MainHue).tdiv
      ((255 - s.hue) / 9) + 1) * 2) % 256 }, ?_, rfl, rfl, rfl, ?_⟩
  · have hr : breachRate (breachHue s) = some (((((breachHue s).ReactorHue
        - (breachHue s).MainHue).tdiv ((255 - s.hue) / 9) + 1) * 2) % 256) := by
      unfold breachRate
      simp only [breachHue_hue, hb, hd, if_false, RateMultiplier]
      rfl
    unfold loop
    rw [if_neg hne, if_pos hp]
    unfold breachUpdate
    simp only [hr, Option.map_some']
  · intro f hf
    have := rampLoop_frames_Rate lib false fuel 32 _ f hf
    simpa using this

/-- C7 amended, at the tick from the initial state in pattern 2: the rate is
`(1 / 10 + 1) * 2 = 2`. -/
theorem breach_rate_formula_witness :
    ∃ s1 : State,
      loop sampleLib 300 { initState with pattern := 2 }
        = some (chase sampleLib 300 false false false s1) ∧ s1.Rate = 2 := by
  obtain ⟨s1, h1, _, _, h4, _⟩ :=
    breach_rate_formula sampleLib 300 { initState with pattern := 2 }
      (by decide) (by decide) (by decide)
  refine ⟨s1, h1, ?_⟩
  rw [h4]; decide

/-- C8: after `/settings?pattern=2&hue=250` the breach tick has no result: the divisor
`breach_diff / 9 = 5 / 9` of its rate computation is 0. For a base hue in 0..255 the
divisor is 0 exactly when the hue is 247 or more. -/
theorem breach_rate_divides_by_zero :
    (breachStart 250).hue = 250 ∧ (breachStart 250).pattern = 2 ∧
    byte (255 - (breachStart 250).hue) / 9 = 0 ∧
    (∀ (lib : FastLED) (fuel : Nat), loop lib fuel (breachStart 250) = none) ∧
    (∀ s : State, 0 ≤ s.hue → s.hue ≤ 255 → (breachRate s = none ↔ 247 ≤ s.hue)) := by
  have e1 : (breachStart 250).hue = 250 := by decide
  have e4 : (breachStart 250).pattern = 2 := by decide
  refine ⟨e1, e4, by decide, ?_, ?_⟩
  · intro lib fuel
    simp [loop, e4, breachUpdate, breachRate, byte, e1]
  · intro s h0 h1
    have hb : byte (255 - s.hue) = 255 - s.hue := by unfold byte; omega
    unfold breachRate
    simp only [hb]
    split_ifs with h
    · simp only [true_iff]; omega
    · simp only [false_iff, reduceCtorEq]; omega

/-- C9: in every frame that `chase` flushes, for every flag combination, pulse phase,
ramp value and hue state (and whether or not the loop ends), each cell of the
reaction zone (indices 10, 11, 12) holds `CHSV(ReactorHue, saturation, 255)`. -/
theorem reaction_zone_full_brightness_at_flush (lib : FastLED) (fuel : Nat)
    (Rainbow Fade SlowFade : Bool) (s : State) (f : Flush)
    (hf : f ∈ (chase lib fuel Rainbow Fade SlowFade s).1) (j : LEDindex)
    (h1 : TopLEDcount ≤ (j.val : Int)) (h2 : (j.val : Int) < TopLEDcount + ReactionLEDcount) :
    f.st.LEDarray j = lib.CHSV f.st.ReactorHue f.st.saturation 255 := by
  obtain ⟨v, s0, e⟩ := rampLoop_frames_shape lib Rainbow fuel 32 _ f hf
  rw [e]
  unfold rampBody
  simp only [reactionLoop_ReactorHue, reactionLoop_saturation]
  exact reactionLoop_cells lib _ j h1 h2

/-- C9 at the first frame of the first tick: the pulse phase is 1, the top check
admits index 11 (offset 10) and the chase writes the ramp value 32 there; at the
flush cell 11 holds `CHSV(160, 255, 255)`. -/
theorem reaction_zone_full_brightness_at_flush_witness :
    topValid 1 10 = true ∧ topIndex 1 10 = 11 ∧
    (⟨rampBody sampleLib false 32 (chasePhase false false initState), 32⟩ : Flush)
      ∈ (chase sampleLib 1 false false false initState).1 ∧
    (rampBody sampleLib false 32 (chasePhase false false initState)).LEDarray ⟨11, by decide⟩
      = sampleLib.CHSV 160 255 255 := by
  have hmem : (⟨rampBody sampleLib false 32 (chasePhase false false initState), 32⟩ : Flush)
      ∈ (chase sampleLib 1 false false false initState).1 := by
    rw [chase, rampLoop_succ_below _ _ _ _ _ (by decide)]
    exact List.mem_cons_self _ _
  have h := reaction_zone_full_brightness_at_flush sampleLib 1 false false false initState
    ⟨rampBody sampleLib false 32 (chasePhase false false initState), 32⟩ hmem
    ⟨11, by decide⟩ (by decide) (by decide)
  have eR : (rampBody sampleLib false 32 (chasePhase false false initState)).ReactorHue = 160 := by
    simp only [rampBody, reactionLoop_ReactorHue, chasesLoop_ReactorHue]; decide
  have eS : (rampBody sampleLib false 32 (chasePhase false false initState)).saturation = 255 := by
    simp only [rampBody, reactionLoop_saturation, chasesLoop_saturation]; decide
  simp only [eR, eS] at h
  exact ⟨by decide, by decide, hmem, h⟩

/-- C10, as stated, fails: with the default `Rate = 4` the ramp loop ends after 57
executions of its body (values 32, 36, ..., 252, then 255), while
`⌈(255 - 32) / 4⌉ = 56`. -/
theorem ramp_loop_default_rate_steps :
    initState.Rate = 4 ∧
    ((chase sampleLib 300 false false false initState).2).isSome = true ∧
    (chase sampleLib 300 false false false initState).1.length = 57 ∧
    (255 - 32 + 4 - 1) / 4 = (56 : Int) ∧
    ((chase sampleLib 300 false false false initState).1.length : Int)
      ≠ (255 - 32 + initState.Rate - 1) / initState.Rate := by
  have hR : initState.Rate = 4 := by decide
  obtain ⟨fs, f, s1, e, _, _, hlen⟩ :=
    chase_steps sampleLib 300 false false false initState (by decide) (by decide) (by decide)
  rw [hR] at hlen
  have h57 : (fs ++ [f]).length = 57 := by
    have : ((fs ++ [f]).length : Int) = 57 := by rw [hlen]; decide
    exact_mod_cast this
  refine ⟨hR, ?_, ?_, by decide, ?_⟩
  · rw [e]; rfl
  · rw [e]; exact h57
  · rw [e, hR]
    show ((fs ++ [f]).length : Int) ≠ _
    rw [h57]; decide

/-- C10, amended: for every `Rate` in 1..255 the ramp loop of `chase` ends (any fuel of
224 or more gives the final state), its last step runs with value 255 and every
earlier step with a value below 255, and it executes its body exactly
`⌈(255 - 32) / Rate⌉ + 1` times. -/
theorem ramp_loop_step_count (lib : FastLED) (fuel : Nat) (Rainbow Fade SlowFade : Bool)
    (s : State) (h1 : 1 ≤ s.Rate) (h2 : s.Rate ≤ 255) (hfuel : 224 ≤ fuel) :
    ∃ (fs : List Flush) (f : Flush) (s1 : State),
      chase lib fuel Rainbow Fade SlowFade s = (fs ++ [f], some s1) ∧ f.value = 255 ∧
      (∀ g ∈ fs, g.value < 255) ∧
      ((fs ++ [f]).length : Int) = (255 - 32 + s.Rate - 1) / s.Rate + 1 :=
  chase_steps lib fuel Rainbow Fade SlowFade s h1 h2 hfuel

/-- C10 amended, at the default `Rate = 2 * 2 = 4`: the loop ends after 57 steps. -/
theorem ramp_loop_step_count_witness :
    initState.Rate = 2 * 2 ∧
    ∃ (fs : List Flush) (f : Flush) (s1 : State),
      chase sampleLib 224 false false false initState = (fs ++ [f], some s1) ∧ f.value = 255 ∧
      (fs ++ [f]).length = 57 := by
  obtain ⟨fs, f, s1, e, hv, _, hlen⟩ :=
    ramp_loop_step_count sampleLib 224 false false false initState
      (by decide) (by decide) (by decide)
  refine ⟨by decide, fs, f, s1, e, hv, ?_⟩
  have hR : initState.Rate = 4 := by decide
  rw [hR] at hlen
  have : ((fs ++ [f]).length : Int) = 57 := by rw [hlen]; decide
  exact_mod_cast this

/-- C12: at pulse phase 1 and chase offset 20 the bottom index is 11, it passes the
check of line 273 and it lies in the reaction zone `[10, 13)`, not in the bottom
zone `[13, 28)`; the chase body writes cell 11. Offset 20 is enumerated because
`maxChases`, with `PulseLength` substituted without parentheses, is 70; the bound
the parentheses of line 242 aim at, `(15 / 10 + 1) * 10`, is 20, and at the offsets
0 and 10 every valid bottom index lies in the bottom zone. -/
theorem bottom_check_admits_reaction_zone :
    (20 : Int) ∈ chaseOffsets ∧ bottomValid 1 20 = true ∧ bottomIndex 1 20 = 11 ∧
    TopLEDcount ≤ bottomIndex 1 20 ∧ bottomIndex 1 20 < TopLEDcount + ReactionLEDcount ∧
    ¬ (TopLEDcount + ReactionLEDcount ≤ bottomIndex 1 20) ∧
    (chaseBody sampleLib 32 20 { initState with Pulse := 1 }).LEDarray ⟨11, by decide⟩
      = sampleLib.CHSV 160 255 32 ∧
    maxChases = 70 ∧
    (max TopLEDcount BottomLEDcount / PulseLength + 1) * PulseLength = 20 ∧
    (∀ Pulse chases : Int, 0 ≤ Pulse → Pulse ≤ 9 → chases = 0 ∨ chases = 10 →
      bottomValid Pulse chases = true →
      TopLEDcount + ReactionLEDcount ≤ bottomIndex Pulse chases ∧
        bottomIndex Pulse chases < NUM_LEDS) := by
  refine ⟨by decide, by decide, by decide, by decide, by decide, by decide, by decide,
    by decide, by decide, ?_⟩
  intro Pulse chases hp0 hp1 hc hv
  have hmem : chases ∈ chaseOffsets := by
    rw [chaseOffsets_eq]
    rcases hc with h | h <;> subst h <;> decide
  have h := bottom_index_range Pulse chases hp0 hp1 hmem hv
  exact ⟨h.2.2.2 (by rcases hc with h | h <;> omega), h.2.1⟩

end WarpCore
